import Mathlib

/-!
# Cluster settings metadata, the pgcrypto cipher helper and the asyncpg lists

A shallow embedding of three Go files:

* `pkg/settings/setting.go`: the enumerations `Class`, `Visibility`,
  `ValueOrigin` and the interfaces `Setting` / `NonMaskedSetting`;
* `pkg/ccl/pgcryptoccl/pgcryptocipherccl/cipher.go`: `Encrypt`, `Decrypt`
  and their helpers;
* `pkg/cmd/roachtest/tests/asyncpg_blocklist.go`: the asyncpg lists.

Go byte slices are lists of naturals (one byte per element), Go `int` sizes
and lengths are naturals (every size in the embedded code is a length, a
block size or one of the constants 16, 24, 32), a Go `(value, error)` result
is an `Except`, and a run-time panic is the error `Error.panic`.
-/

namespace settings

/-! ## `pkg/settings/setting.go` -/

/-- The Go type `Class` is an `int8`. -/
abbrev Class := Int

/-- The constant `SystemOnly Class = iota`. -/
def SystemOnly : Class := 0
/-- The constant `TenantReadOnly`, second of the `iota` block. -/
def TenantReadOnly : Class := 1
/-- The constant `TenantWritable`, third of the `iota` block. -/
def TenantWritable : Class := 2

/-- The Go type `Visibility` is an `int8`. -/
abbrev Visibility := Int

/-- The zero value of the Go type `Visibility` (what an `int8` variable holds
when nothing was assigned to it). -/
def Visibility.zeroValue : Visibility := 0

/-- The constant `Reserved Visibility = iota`. -/
def Reserved : Visibility := 0
/-- The constant `Public`, second of the `iota` block. -/
def Public : Visibility := 1

/-- The Go type `ValueOrigin` is a `uint32`: a natural below `2 ^ 32`. -/
abbrev ValueOrigin := Nat

/-- The constant `OriginDefault ValueOrigin = iota`. -/
def OriginDefault : ValueOrigin := 0
/-- The constant `OriginExplicitlySet`, second of the `iota` block. -/
def OriginExplicitlySet : ValueOrigin := 1
/-- The constant `OriginExternallySet`, third of the `iota` block. -/
def OriginExternallySet : ValueOrigin := 2

/-- The verb `%d` of `fmt.Sprintf` applied to an unsigned integer: its decimal
digits, most significant first. -/
def sprintfD (n : Nat) : String := String.mk (Nat.toDigits 10 n)

/-- The array literal indexed in `ValueOrigin.String`. -/
def originNames : List String := ["default", "override", "external-override"]

/-- The method `ValueOrigin.String`. The index expression `[...]string{...}[v]`
panics in Go when `v` is out of range; here that is the result `none`. -/
def ValueOrigin.String (v : ValueOrigin) : Option String :=
  if v > OriginExternallySet then
    some ("invalid (" ++ sprintfD v ++ ")")
  else
    originNames.get? v

/-! ## The values store, the registry and the reporting view

`setting.go` declares the interfaces only; the registry, the values store and
the masked setting are in other files of the package. The definitions of this
section follow the specification of the cluster settings subsystem. -/

/-- The Go type `InternalKey` is a string. -/
abbrev InternalKey := String

/-- The Go type `SettingName` is a string. -/
abbrev SettingName := String

/-- Modelled from the spec: the setting descriptor, an immutable record with the
internal key, the name, the class, the visibility, the type tag, the
description, the encoded default value, an optional validator and the
reportable mark. The registry that holds the descriptors is not in
`setting.go`. -/
structure Descriptor where
  Key : InternalKey
  Name : SettingName
  Class : Class
  Visibility : Visibility
  TypeTag : Char
  Description : String
  DefaultEncodedValue : String
  Validator : Option (String → Bool)
  Reportable : Bool

/-- Modelled from the spec: what the values store holds for one key, the two
optional layers `explicit` (set locally) and `external` (propagated). The store
is not in `setting.go`. -/
structure Layers where
  explicit : Option String
  external : Option String
  deriving DecidableEq, Repr

/-- Modelled from the spec: the values store, one pair of layers for every
internal key. The type `Values` is declared outside `setting.go`. -/
structure Values where
  layers : InternalKey → Layers

/-- Modelled from the spec: a new store, in which every key is in the state
`Unset`. The constructor of `Values` is not in `setting.go`. -/
def Values.new : Values := { layers := fun _ => { explicit := none, external := none } }

/-- Modelled from the spec: the transition `SetExplicit(v)` of the precedence
state machine, on one key. The store's methods are not in `setting.go`. -/
def Values.SetExplicit (sv : Values) (k : InternalKey) (v : String) : Values :=
  { layers := fun k2 => if k2 = k then { sv.layers k2 with explicit := some v }
                         else sv.layers k2 }

/-- Modelled from the spec: the transition `ClearExplicit`, on one key. The
store's methods are not in `setting.go`. -/
def Values.ClearExplicit (sv : Values) (k : InternalKey) : Values :=
  { layers := fun k2 => if k2 = k then { sv.layers k2 with explicit := none }
                         else sv.layers k2 }

/-- Modelled from the spec: the transition `SetExternal(v)`, on one key. The
store's methods are not in `setting.go`. -/
def Values.SetExternal (sv : Values) (k : InternalKey) (v : String) : Values :=
  { layers := fun k2 => if k2 = k then { sv.layers k2 with external := some v }
                         else sv.layers k2 }

/-- Modelled from the spec: the transition `ClearExternal`, on one key. The
store's methods are not in `setting.go`. -/
def Values.ClearExternal (sv : Values) (k : InternalKey) : Values :=
  { layers := fun k2 => if k2 = k then { sv.layers k2 with external := none }
                         else sv.layers k2 }

/-- Modelled from the spec: the precedence resolver, a pure function of the two
layers and the default: `external` if present, else `explicit` if present, else
the default; the origin mirrors which layer won. The resolver is not in
`setting.go`. -/
def Resolve (default : String) (l : Layers) : String × ValueOrigin :=
  match l.external with
  | some x => (x, OriginExternallySet)
  | none =>
    match l.explicit with
    | some e => (e, OriginExplicitlySet)
    | none => (default, OriginDefault)

/-- Modelled from the spec: the method `Encoded(store)`, the resolved value of
the setting. Its implementations are not in `setting.go`. -/
def Descriptor.Encoded (d : Descriptor) (sv : Values) : String :=
  (Resolve d.DefaultEncodedValue (sv.layers d.Key)).1

/-- Modelled from the spec: the method `ValueOrigin(ctx, store)`, the resolved
origin. Its implementations are not in `setting.go`. -/
def Descriptor.ValueOrigin (d : Descriptor) (sv : Values) : ValueOrigin :=
  (Resolve d.DefaultEncodedValue (sv.layers d.Key)).2

/-- The errors of the settings subsystem that the claims meet: the typed
validation error, which carries the offending raw string and the type tag. -/
inductive SettingError where
  | validation (raw : String) (typeTag : Char)
  deriving DecidableEq, Repr

/-- Modelled from the spec: the method `DecodeToString(encoded)`, which decodes
the encoded value by the rules of the setting's variant, validates it and
renders it. `render tag encoded` is the variant-specific decoding followed by
rendering (`none` when `encoded` does not decode); the variants are not in
`setting.go`. The interface declares the method as
`DecodeToString(encoded string) (repr string, err error)`: unlike `String`,
`Encoded` and `ValueOrigin` it is handed no `*Values`, so its embedding takes
the setting and the encoded string and returns the result only. -/
def Descriptor.DecodeToString (render : Char → String → Option String) (d : Descriptor)
    (encoded : String) : Except SettingError String :=
  match render d.TypeTag encoded with
  | none => .error (.validation encoded d.TypeTag)
  | some repr =>
    match d.Validator with
    | none => .ok repr
    | some valid =>
      if valid encoded then .ok repr else .error (.validation encoded d.TypeTag)

/-- Modelled from the spec: the method `String(store)` of a non-masked setting,
the string representation of the current value: what `DecodeToString` gives on
the stored encoded value (the encoded value itself if it does not decode). Its
implementations are not in `setting.go`. -/
def Descriptor.String (render : Char → String → Option String) (d : Descriptor)
    (sv : Values) : String :=
  match render d.TypeTag (d.Encoded sv) with
  | some repr => repr
  | none => d.Encoded sv

/-- Modelled from the spec: the fixed redaction token; the spec fixes no text for
it, this is the text chosen here. The masked setting is not in `setting.go`. -/
def redactionToken : String := "<redacted>"

/-- Modelled from the spec: a setting as the two lookups return it, either with
access to the current value or masked for reporting. The two implementations of
the interface `Setting` are not in `setting.go`. -/
inductive Setting where
  | nonMasked (d : Descriptor)
  | masked (d : Descriptor)

/-- The descriptor behind a setting: the metadata, which a masked setting passes
through unmodified. -/
def Setting.descriptor : Setting → Descriptor
  | .nonMasked d => d
  | .masked d => d

/-- Modelled from the spec: the method `String(store)` of the interface
`Setting`; for a setting retrieved for reporting it returns the redaction token
in place of the value. Its implementations are not in `setting.go`. -/
def Setting.String (render : Char → String → Option String) : Setting → Values → String
  | .nonMasked d, sv => d.String render sv
  | .masked _, _ => redactionToken

/-- Modelled from the spec: the descriptor registry, a table of descriptors. The
registry is not in `setting.go`. -/
abbrev Registry := List Descriptor

/-- Modelled from the spec: `LookupByKey(key)`, the non-masked setting registered
under `key`. The registry is not in `setting.go`. -/
def LookupByKey (reg : Registry) (key : InternalKey) : Option Setting :=
  (reg.find? fun d => d.Key == key).map Setting.nonMasked

/-- Modelled from the spec: `LookupForReportingByKey(key)`, a view that is masked
whenever the descriptor is marked non-reportable. The registry is not in
`setting.go`. -/
def LookupForReportingByKey (reg : Registry) (key : InternalKey) : Option Setting :=
  (reg.find? fun d => d.Key == key).map fun d =>
    if d.Reportable then Setting.nonMasked d else Setting.masked d

/-- Modelled from the spec: the statement `SET CLUSTER SETTING`, which validates the
literal with `DecodeToString` and then calls `SetExplicit`; on a validation error
the store state is unchanged and the error is returned to the caller. The result
is the store after the statement and the error, if any. The SQL statement layer
is not in `setting.go`. -/
def SetClusterSetting (render : Char → String → Option String) (d : Descriptor)
    (sv : Values) (literal : String) : Values × Option SettingError :=
  match d.DecodeToString render literal with
  | .error err => (sv, some err)
  | .ok _ => (sv.SetExplicit d.Key literal, none)

/-- The substring test: `needle` occurs in `s` as a contiguous run of characters. -/
def containsSubstring (s needle : String) : Bool :=
  s.data.tails.any fun t => needle.data.isPrefixOf t

/-! ### A concrete registry -/

/-- A rendering for the demonstration: booleans, and strings as they are. -/
def demoRender (tag : Char) (encoded : String) : Option String :=
  if tag = 'b' then
    if encoded = "true" ∨ encoded = "false" then some encoded else none
  else if tag = 's' then some encoded
  else none

/-- A non-reportable string setting. -/
def demoSecret : Descriptor where
  Key := "server.secret_token"
  Name := "server.secret.token"
  Class := SystemOnly
  Visibility := Reserved
  TypeTag := 's'
  Description := "a token that must not appear in reports"
  DefaultEncodedValue := ""
  Validator := some fun s => s.length ≤ 64
  Reportable := false

/-- A reportable boolean setting. -/
def demoFlag : Descriptor where
  Key := "sql.demo_flag.enabled"
  Name := "sql.demo_flag.enabled"
  Class := TenantWritable
  Visibility := Public
  TypeTag := 'b'
  Description := "a flag"
  DefaultEncodedValue := "false"
  Validator := none
  Reportable := true

/-- The registry of the demonstration. -/
def demoRegistry : Registry := [demoFlag, demoSecret]

/-- A store in which the secret was set explicitly. -/
def demoStore : Values := Values.new.SetExplicit "server.secret_token" "secret123"

end settings

namespace pgcryptocipherccl

/-! ## `pkg/ccl/pgcryptoccl/pgcryptocipherccl/cipher.go` -/

/-- The errors the cipher helper can return, one constructor per message, and
the run-time panics of the Go standard library it calls. -/
inductive Error where
  /-- The message "cannot create new cipher for unknown algorithm: %d". -/
  | unknownAlgorithm (a : Int)
  /-- The message "cannot pad for unknown padding: %d". -/
  | unknownPad (p : Int)
  /-- The message "cannot unpad for unknown padding: %d". -/
  | unknownUnpad (p : Int)
  /-- The message "cannot encrypt for unknown mode: %d", which both `encrypt`
  and `decrypt` use. -/
  | unknownMode (m : Int)
  /-- The pgerror "data has length %d, which is not a multiple of block size %d". -/
  | dataLength (len blockSize : Nat)
  /-- The error `aes.KeySizeError` of the standard library. -/
  | keySize (n : Nat)
  /-- An error returned by a function of the package that is outside `cipher.go`. -/
  | other (msg : String)
  /-- A run-time panic. -/
  | panic (msg : String)
  deriving DecidableEq, Repr

/-- The struct `cipherMethod`; its three fields are integer-typed enumerations
(they are printed with `%d`). -/
structure cipherMethod where
  algorithm : Int
  mode : Int
  padding : Int
  deriving DecidableEq, Repr

/-- What `cipher.go` uses from the other files of its package: the enumeration
constants and the functions `parseCipherMethod`, `pkcsPad` and `pkcsUnpad`. -/
structure Package where
  aesCipher : Int
  cbcMode : Int
  pkcsPadding : Int
  noPadding : Int
  parseCipherMethod : String → Except Error cipherMethod
  pkcsPad : List Nat → Nat → Except Error (List Nat)
  pkcsUnpad : List Nat → Except Error (List Nat)

/-- The interface `cipher.Block` of the standard library. -/
structure Block where
  BlockSize : Nat
  Encrypt : List Nat → List Nat
  Decrypt : List Nat → List Nat

/-- The block functions of `crypto/aes`: each takes the key and one block. -/
structure AES where
  encryptBlock : List Nat → List Nat → List Nat
  decryptBlock : List Nat → List Nat → List Nat

/-- The constant `aes.BlockSize`. -/
def aesBlockSize : Nat := 16

/-- The constructor `aes.NewCipher`: a key of 16, 24 or 32 bytes gives a block
cipher of block size 16, any other length is a `KeySizeError`. -/
def aesNewCipher (A : AES) (key : List Nat) : Except Error Block :=
  if key.length = 16 ∨ key.length = 24 ∨ key.length = 32 then
    .ok { BlockSize := aesBlockSize
          Encrypt := A.encryptBlock key
          Decrypt := A.decryptBlock key }
  else
    .error (.keySize key.length)

/-- The function `zeroPadOrTruncate`. -/
def zeroPadOrTruncate (data : List Nat) (size : Nat) : List Nat :=
  if data.length ≥ size then
    data.take size
  else
    data ++ List.replicate (size - data.length) 0

/-- The key that `newCipher` passes to `aes.NewCipher`: the inner `switch` on
`len(key)`. -/
def newCipherKey (key : List Nat) : List Nat :=
  if key.length ≥ 32 then
    zeroPadOrTruncate key 32
  else if key.length ≥ 24 then
    zeroPadOrTruncate key 24
  else
    zeroPadOrTruncate key 16

/-- The function `newCipher`. -/
def newCipher (P : Package) (A : AES) (method : cipherMethod) (key : List Nat) :
    Except Error Block :=
  if method.algorithm = P.aesCipher then
    aesNewCipher A (newCipherKey key)
  else
    .error (.unknownAlgorithm method.algorithm)

/-- The function `padData`. -/
def padData (P : Package) (method : cipherMethod) (data : List Nat) (blockSize : Nat) :
    Except Error (List Nat) :=
  if method.padding = P.pkcsPadding then
    P.pkcsPad data blockSize
  else if method.padding = P.noPadding then
    .ok data
  else
    .error (.unknownPad method.padding)

/-- The function `unpadData`. -/
def unpadData (P : Package) (method : cipherMethod) (data : List Nat) :
    Except Error (List Nat) :=
  if method.padding = P.pkcsPadding then
    P.pkcsUnpad data
  else if method.padding = P.noPadding then
    .ok data
  else
    .error (.unknownUnpad method.padding)

/-- The function `validateDataLength`; `len(data) % blockSize` panics in Go
when `blockSize` is 0. -/
def validateDataLength (data : List Nat) (blockSize : Nat) : Except Error Unit :=
  if blockSize = 0 then
    .error (.panic "integer divide by zero")
  else if data.length % blockSize ≠ 0 then
    .error (.dataLength data.length blockSize)
  else
    .ok ()

/-- The function `subtle.XORBytes`: byte-wise exclusive or, over the shorter of
the two lengths. -/
def xorBytes (x y : List Nat) : List Nat := List.zipWith Nat.xor x y

/-- The loop of `cbcEncrypter.CryptBlocks` run for `n` blocks: each plaintext
block is xored with the previous ciphertext block (the iv for the first) and
encrypted. -/
def cbcEncryptBlocks (b : Block) : Nat → List Nat → List Nat → List Nat
  | 0, _, _ => []
  | n + 1, iv, src =>
    let c := b.Encrypt (xorBytes (src.take b.BlockSize) iv)
    c ++ cbcEncryptBlocks b n c (src.drop b.BlockSize)

/-- The loop of `cbcDecrypter.CryptBlocks` run for `n` blocks: each ciphertext
block is decrypted and xored with the previous ciphertext block (the iv for the
first). -/
def cbcDecryptBlocks (b : Block) : Nat → List Nat → List Nat → List Nat
  | 0, _, _ => []
  | n + 1, iv, src =>
    let c := src.take b.BlockSize
    xorBytes (b.Decrypt c) iv ++ cbcDecryptBlocks b n c (src.drop b.BlockSize)

/-- The calls `cipher.NewCBCEncrypter(block, iv)` and `mode.CryptBlocks(ret, data)`
with `ret` of the length of `data`; the two panics are those of the library. -/
def cbcEncrypt (b : Block) (iv src : List Nat) : Except Error (List Nat) :=
  if iv.length ≠ b.BlockSize then
    .error (.panic "cipher.NewCBCEncrypter: IV length must equal block size")
  else if b.BlockSize = 0 then
    .error (.panic "integer divide by zero")
  else if src.length % b.BlockSize ≠ 0 then
    .error (.panic "crypto/cipher: input not full blocks")
  else
    .ok (cbcEncryptBlocks b (src.length / b.BlockSize) iv src)

/-- The calls `cipher.NewCBCDecrypter(block, iv)` and `mode.CryptBlocks(ret, data)`
with `ret` of the length of `data`; the two panics are those of the library. -/
def cbcDecrypt (b : Block) (iv src : List Nat) : Except Error (List Nat) :=
  if iv.length ≠ b.BlockSize then
    .error (.panic "cipher.NewCBCDecrypter: IV length must equal block size")
  else if b.BlockSize = 0 then
    .error (.panic "integer divide by zero")
  else if src.length % b.BlockSize ≠ 0 then
    .error (.panic "crypto/cipher: input not full blocks")
  else
    .ok (cbcDecryptBlocks b (src.length / b.BlockSize) iv src)

/-- The function `encrypt`. -/
def encrypt (P : Package) (method : cipherMethod) (block : Block) (iv data : List Nat) :
    Except Error (List Nat) :=
  if method.mode = P.cbcMode then
    cbcEncrypt block (zeroPadOrTruncate iv block.BlockSize) data
  else
    .error (.unknownMode method.mode)

/-- The function `decrypt`. -/
def decrypt (P : Package) (method : cipherMethod) (block : Block) (iv data : List Nat) :
    Except Error (List Nat) :=
  if method.mode = P.cbcMode then
    cbcDecrypt block (zeroPadOrTruncate iv block.BlockSize) data
  else
    .error (.unknownMode method.mode)

/-- The function `Encrypt`. -/
def Encrypt (P : Package) (A : AES) (data key iv : List Nat) (cipherType : String) :
    Except Error (List Nat) :=
  match P.parseCipherMethod cipherType with
  | .error err => .error err
  | .ok method =>
    match newCipher P A method key with
    | .error err => .error err
    | .ok block =>
      match padData P method data block.BlockSize with
      | .error err => .error err
      | .ok data =>
        match validateDataLength data block.BlockSize with
        | .error err => .error err
        | .ok _ => encrypt P method block iv data

/-- The function `Decrypt`. -/
def Decrypt (P : Package) (A : AES) (data key iv : List Nat) (cipherType : String) :
    Except Error (List Nat) :=
  match P.parseCipherMethod cipherType with
  | .error err => .error err
  | .ok method =>
    match newCipher P A method key with
    | .error err => .error err
    | .ok block =>
      match validateDataLength data block.BlockSize with
      | .error err => .error err
      | .ok _ =>
        match decrypt P method block iv data with
        | .error err => .error err
        | .ok data => unpadData P method data

/-! ### Hypotheses on the parameters -/

/-- A block cipher is well-formed when its block size is positive, it maps a
block to a block, and block decryption inverts block encryption. -/
def Block.Invertible (b : Block) : Prop :=
  0 < b.BlockSize ∧
  ∀ x : List Nat, x.length = b.BlockSize →
    (b.Encrypt x).length = b.BlockSize ∧ b.Decrypt (b.Encrypt x) = x

/-- For every key of a valid size, AES block decryption inverts AES block
encryption, on blocks of 16 bytes. -/
def AES.Invertible (A : AES) : Prop :=
  ∀ key x : List Nat, (key.length = 16 ∨ key.length = 24 ∨ key.length = 32) →
    x.length = aesBlockSize →
    (A.encryptBlock key x).length = aesBlockSize ∧
    A.decryptBlock key (A.encryptBlock key x) = x

/-- Whatever `pkcsPad` returns, `pkcsUnpad` turns back into the data. -/
def Package.UnpadInvertsPad (P : Package) : Prop :=
  ∀ (data : List Nat) (blockSize : Nat) (padded : List Nat),
    P.pkcsPad data blockSize = .ok padded → P.pkcsUnpad padded = .ok data

/-! ### A concrete instance of the parameters

A package with the PKCS#7 padding and a toy block cipher (exclusive or with the
first 16 key bytes, then reversal), on which the embedded functions can be run. -/

/-- PKCS#7 padding: `n` bytes of value `n`, with `n = blockSize - len % blockSize`. -/
def demoPkcsPad (data : List Nat) (blockSize : Nat) : Except Error (List Nat) :=
  if blockSize = 0 ∨ blockSize > 255 then
    .error (.other "invalid block size for PKCS padding")
  else
    let n := blockSize - data.length % blockSize
    .ok (data ++ List.replicate n n)

/-- PKCS#7 un-padding: the last byte is the number of bytes to drop. -/
def demoPkcsUnpad (data : List Nat) : Except Error (List Nat) :=
  match data.getLast? with
  | none => .error (.other "PKCS-padded data is empty")
  | some n =>
    if n = 0 ∨ n > data.length then
      .error (.other "invalid final byte found in PKCS-padded data")
    else
      .ok (data.take (data.length - n))

/-- A parser of cipher types that knows "aes", "aes-cbc", "aes-cbc/pad:pkcs"
and "aes-cbc/pad:none". -/
def demoParseCipherMethod (cipherType : String) : Except Error cipherMethod :=
  if cipherType = "aes-cbc/pad:none" then
    .ok { algorithm := 1, mode := 0, padding := 1 }
  else if cipherType = "aes" ∨ cipherType = "aes-cbc" ∨ cipherType = "aes-cbc/pad:pkcs" then
    .ok { algorithm := 1, mode := 0, padding := 0 }
  else
    .error (.other "cipher method has wrong format")

/-- The instance of the package. -/
def demoPackage : Package where
  aesCipher := 1
  cbcMode := 0
  pkcsPadding := 0
  noPadding := 1
  parseCipherMethod := demoParseCipherMethod
  pkcsPad := demoPkcsPad
  pkcsUnpad := demoPkcsUnpad

/-- A toy block cipher in place of AES. -/
def demoAES : AES where
  encryptBlock := fun key b => (xorBytes b (key.take 16)).reverse
  decryptBlock := fun key b => xorBytes b.reverse (key.take 16)

/-- Sixteen bytes. -/
def demoBlock : List Nat := [1, 2, 3, 4, 5, 6, 7, 8, 9, 10, 11, 12, 13, 14, 15, 16]

/-- A key of 16 bytes. -/
def demoKey : List Nat := List.replicate 16 7

/-- An initialization vector of 3 bytes, which `encrypt` pads to 16. -/
def demoIV : List Nat := [200, 100, 50]

end pgcryptocipherccl

namespace tests

/-! ## `pkg/cmd/roachtest/tests/asyncpg_blocklist.go` -/

/-- The Go type `blocklist` is a map from test name to reason; a map literal is
kept here as the list of its entries in the order they are written. -/
abbrev blocklist := List (String × String)

/-- The variable `asyncpgBlocklist21_2`. -/
def asyncpgBlocklist21_2 : blocklist := []

/-- The variable `asyncpgBlocklist22_1`. -/
def asyncpgBlocklist22_1 : blocklist := asyncpgBlocklist21_2

/-- The variable `asyncpgIgnoreList21_2`. -/
def asyncpgIgnoreList21_2 : blocklist := [
  ("test_cache_invalidation.TestCacheInvalidation.test_prepare_cache_invalidation_in_pool", "unknown"),
  ("test_cache_invalidation.TestCacheInvalidation.test_prepare_cache_invalidation_in_transaction", "unknown"),
  ("test_cache_invalidation.TestCacheInvalidation.test_prepare_cache_invalidation_silent", "unknown"),
  ("test_cache_invalidation.TestCacheInvalidation.test_prepared_type_cache_invalidation", "unknown"),
  ("test_cache_invalidation.TestCacheInvalidation.test_type_cache_invalidation_in_cancelled_transaction", "unknown"),
  ("test_cache_invalidation.TestCacheInvalidation.test_type_cache_invalidation_in_pool", "unknown"),
  ("test_cache_invalidation.TestCacheInvalidation.test_type_cache_invalidation_in_transaction", "unknown"),
  ("test_cache_invalidation.TestCacheInvalidation.test_type_cache_invalidation_on_change_attr", "unknown"),
  ("test_cache_invalidation.TestCacheInvalidation.test_type_cache_invalidation_on_drop_type_attr", "unknown"),
  ("test_cancellation.TestCancellation.test_cancellation_03", "unknown"),
  ("test_codecs.TestCodecs.test_array_with_custom_json_text_codec", "unknown"),
  ("test_codecs.TestCodecs.test_composites_in_arrays", "unknown"),
  ("test_codecs.TestCodecs.test_enum", "unknown"),
  ("test_codecs.TestCodecs.test_enum_and_range", "unknown"),
  ("test_codecs.TestCodecs.test_enum_function_return", "unknown"),
  ("test_codecs.TestCodecs.test_enum_in_array", "unknown"),
  ("test_codecs.TestCodecs.test_enum_in_composite", "unknown"),
  ("test_codecs.TestCodecs.test_invalid_input", "unknown"),
  ("test_codecs.TestCodecs.test_relacl_array_type", "unknown"),
  ("test_codecs.TestCodecs.test_timetz_encoding", "unknown"),
  ("test_codecs.TestCodecs.test_unhandled_type_fallback", "unknown"),
  ("test_codecs.TestCodecs.test_unknown_type_text_fallback", "unknown"),
  ("test_codecs.TestCodecs.test_void", "unknown"),
  ("test_connect.TestSettings.test_get_settings_01", "unknown"),
  ("test_copy.TestCopyFrom.test_copy_from_query_basics", "unknown"),
  ("test_copy.TestCopyFrom.test_copy_from_query_cancellation_explicit", "unknown"),
  ("test_copy.TestCopyFrom.test_copy_from_query_cancellation_on_sink_error", "unknown"),
  ("test_copy.TestCopyFrom.test_copy_from_query_cancellation_while_waiting_for_data", "unknown"),
  ("test_copy.TestCopyFrom.test_copy_from_query_timeout_1", "unknown"),
  ("test_copy.TestCopyFrom.test_copy_from_query_timeout_2", "unknown"),
  ("test_copy.TestCopyFrom.test_copy_from_query_to_path", "unknown"),
  ("test_copy.TestCopyFrom.test_copy_from_query_to_path_like", "unknown"),
  ("test_copy.TestCopyFrom.test_copy_from_query_to_sink", "unknown"),
  ("test_copy.TestCopyFrom.test_copy_from_query_with_args", "unknown"),
  ("test_copy.TestCopyFrom.test_copy_from_table_basics", "unknown"),
  ("test_copy.TestCopyFrom.test_copy_from_table_large_rows", "unknown"),
  ("test_copy.TestCopyTo.test_copy_records_to_table_1", "unknown"),
  ("test_copy.TestCopyTo.test_copy_records_to_table_async", "unknown"),
  ("test_copy.TestCopyTo.test_copy_to_table_basics", "unknown"),
  ("test_cursor.TestCursor.test_cursor_02", "unknown"),
  ("test_cursor.TestCursor.test_cursor_04", "unknown"),
  ("test_cursor.TestIterableCursor.test_cursor_iterable_02", "unknown"),
  ("test_exceptions.TestExceptions.test_exceptions_str", "unknown"),
  ("test_exceptions.TestExceptions.test_exceptions_unpacking", "unknown"),
  ("test_execute.TestExecuteMany.test_executemany_client_failure_after_writes", "unknown"),
  ("test_execute.TestExecuteMany.test_executemany_client_failure_in_transaction", "unknown"),
  ("test_execute.TestExecuteMany.test_executemany_client_server_failure_conflict", "unknown"),
  ("test_execute.TestExecuteMany.test_executemany_prepare", "unknown"),
  ("test_execute.TestExecuteMany.test_executemany_server_failure", "unknown"),
  ("test_execute.TestExecuteMany.test_executemany_server_failure_after_writes", "unknown"),
  ("test_execute.TestExecuteMany.test_executemany_server_failure_during_writes", "unknown"),
  ("test_execute.TestExecuteMany.test_executemany_timeout", "unknown"),
  ("test_execute.TestExecuteMany.test_executemany_timeout_flow_control", "unknown"),
  ("test_execute.TestExecuteScript.test_execute_script_3", "unknown"),
  ("test_execute.TestExecuteScript.test_execute_script_check_transactionality", "unknown"),
  ("test_execute.TestExecuteScript.test_execute_script_interrupted_close", "unknown"),
  ("test_introspection.TestIntrospection.test_introspection_no_stmt_cache_01", "unknown"),
  ("test_introspection.TestIntrospection.test_introspection_no_stmt_cache_02", "unknown"),
  ("test_introspection.TestIntrospection.test_introspection_no_stmt_cache_03", "unknown"),
  ("test_introspection.TestIntrospection.test_introspection_on_large_db", "unknown"),
  ("test_introspection.TestIntrospection.test_introspection_retries_after_cache_bust", "unknown"),
  ("test_introspection.TestIntrospection.test_introspection_sticks_for_ps", "unknown"),
  ("test_listeners.TestListeners.test_listen_01", "unknown"),
  ("test_listeners.TestListeners.test_listen_02", "unknown"),
  ("test_listeners.TestListeners.test_listen_notletters", "unknown"),
  ("test_listeners.TestLogListeners.test_log_listener_01", "unknown"),
  ("test_listeners.TestLogListeners.test_log_listener_02", "unknown"),
  ("test_listeners.TestLogListeners.test_log_listener_03", "unknown"),
  ("test_pool.TestPool.test_pool_handles_query_cancel_in_release", "unknown"),
  ("test_pool.TestPool.test_pool_handles_task_cancel_in_release", "unknown"),
  ("test_pool.TestPool.test_pool_init_race", "unknown"),
  ("test_pool.TestPool.test_pool_init_run_until_complete", "unknown"),
  ("test_pool.TestPool.test_pool_remote_close", "unknown"),
  ("test_prepare.TestPrepare.test_prepare_06_interrupted_close", "unknown"),
  ("test_prepare.TestPrepare.test_prepare_08_big_result", "unknown"),
  ("test_prepare.TestPrepare.test_prepare_09_raise_error", "unknown"),
  ("test_prepare.TestPrepare.test_prepare_14_explain", "unknown"),
  ("test_prepare.TestPrepare.test_prepare_16_command_result", "unknown"),
  ("test_prepare.TestPrepare.test_prepare_19_concurrent_calls", "unknown"),
  ("test_prepare.TestPrepare.test_prepare_22_empty", "unknown"),
  ("test_prepare.TestPrepare.test_prepare_28_max_args", "unknown"),
  ("test_prepare.TestPrepare.test_prepare_31_pgbouncer_note", "unknown"),
  ("test_prepare.TestPrepare.test_prepare_statement_invalid", "unknown"),
  ("test_record.TestRecord.test_record_subclass_01", "unknown"),
  ("test_record.TestRecord.test_record_subclass_02", "unknown"),
  ("test_record.TestRecord.test_record_subclass_03", "unknown"),
  ("test_record.TestRecord.test_record_subclass_04", "unknown"),
  ("test_timeout.TestConnectionCommandTimeout.test_command_timeout_01", "unknown"),
  ("test_timeout.TestTimeout.test_timeout_04", "unknown"),
  ("test_timeout.TestTimeout.test_timeout_06", "unknown"),
  ("test_utils.TestUtils.test_mogrify_multiple", "unknown"),
  ("test_utils.TestUtils.test_mogrify_simple", "unknown")
]

/-- The variable `asyncpgIgnoreList22_1`. -/
def asyncpgIgnoreList22_1 : blocklist := asyncpgIgnoreList21_2

/-- The keys of a map literal, in the order they are written. -/
def blocklist.keys (l : blocklist) : List String := l.map Prod.fst

/-- The bytes of a Go string: the UTF-8 encoding of its characters. -/
def stringBytes (s : String) : List Nat :=
  (s.data.map fun c => (String.utf8EncodeChar c).map UInt8.toNat).flatten

/-- Byte-wise lexicographic "less than", the order of Go's `<` on strings. -/
def bytesLt : List Nat → List Nat → Bool
  | [], [] => false
  | [], _ :: _ => true
  | _ :: _, [] => false
  | a :: x, b :: y => decide (a < b) || (a == b && bytesLt x y)

/-- A list of strings is alphabetized when each string is byte-wise less than
the next one. -/
def alphabetized : List String → Bool
  | a :: b :: rest => bytesLt (stringBytes a) (stringBytes b) && alphabetized (b :: rest)
  | _ => true

end tests

/-! ## Theorems -/

namespace settings

/-- C1: for a `uint32` value `v`, `ValueOrigin.String` returns "default" at
`OriginDefault`, "override" at `OriginExplicitlySet`, "external-override" at
`OriginExternallySet`, and above 2 the text "invalid (" followed by the decimal
digits of `v` and ")"; it always returns a string, so the table lookup is never
out of range. -/
theorem ValueOrigin_String_spec (v : ValueOrigin) (hv : v < 2 ^ 32) :
    ValueOrigin.String OriginDefault = some "default" ∧
    ValueOrigin.String OriginExplicitlySet = some "override" ∧
    ValueOrigin.String OriginExternallySet = some "external-override" ∧
    (v = OriginDefault ∨ v = OriginExplicitlySet ∨ v = OriginExternallySet ∨ 2 < v) ∧
    (2 < v → ValueOrigin.String v
        = some ("invalid (" ++ String.mk (Nat.toDigits 10 v) ++ ")")) ∧
    (ValueOrigin.String v).isSome = true := by
  have _ := hv
  refine ⟨by decide, by decide, by decide, ?_, ?_, ?_⟩
  · have key : ∀ n : Nat, n = 0 ∨ n = 1 ∨ n = 2 ∨ 2 < n := by intro n; omega
    exact key v
  · intro h
    simp [ValueOrigin.String, OriginExternallySet, h, sprintfD]
  · by_cases h : 2 < v
    · simp [ValueOrigin.String, OriginExternallySet, h]
    · have key : ∀ n : Nat, ¬ 2 < n → n = 0 ∨ n = 1 ∨ n = 2 := by intro n; omega
      rcases key v h with h0 | h0 | h0 <;> subst h0 <;> decide

/-- Witness of C1 at `v = 4294967295`, the largest `uint32`. -/
theorem ValueOrigin_String_spec_witness :
    (4294967295 : Nat) < 2 ^ 32 ∧
    ValueOrigin.String 4294967295 = some "invalid (4294967295)" := by
  refine ⟨by decide, ?_⟩
  have h := (ValueOrigin_String_spec 4294967295 (by decide)).2.2.2.2.1 (by decide)
  rw [h]
  decide

/-- C7: the zero value of `Visibility` is `Reserved`, and `Reserved` and
`Public` are different values. -/
theorem Visibility_zero_is_Reserved :
    Visibility.zeroValue = Reserved ∧ Reserved ≠ Public := by
  constructor
  · rfl
  · decide

end settings

namespace pgcryptocipherccl

/-! ### Helper lemmas -/

theorem xorBytes_length (x y : List Nat) :
    (xorBytes x y).length = min x.length y.length := by
  simp [xorBytes]

theorem xorBytes_cancel : ∀ (x y : List Nat), x.length ≤ y.length →
    xorBytes (xorBytes x y) y = x
  | [], _, _ => by simp [xorBytes]
  | _ :: _, [], h => by simp at h
  | a :: x, c :: y, h => by
    have ih := xorBytes_cancel x y (by simpa using h)
    simp only [xorBytes, List.zipWith_cons_cons, List.cons.injEq] at ih ⊢
    refine ⟨?_, ih⟩
    show (a ^^^ c) ^^^ c = a
    rw [Nat.xor_assoc, Nat.xor_self, Nat.xor_zero]

theorem zeroPadOrTruncate_length (data : List Nat) (size : Nat) :
    (zeroPadOrTruncate data size).length = size := by
  unfold zeroPadOrTruncate
  split
  · rw [List.length_take]; omega
  · rw [List.length_append, List.length_replicate]; omega

theorem newCipherKey_length (key : List Nat) :
    (newCipherKey key).length = 16 ∨ (newCipherKey key).length = 24 ∨
      (newCipherKey key).length = 32 := by
  unfold newCipherKey
  split
  · right; right; exact zeroPadOrTruncate_length _ _
  · split
    · right; left; exact zeroPadOrTruncate_length _ _
    · left; exact zeroPadOrTruncate_length _ _

theorem cbcEncryptBlocks_length (b : Block) (hb : b.Invertible) :
    ∀ (n : Nat) (iv src : List Nat), iv.length = b.BlockSize →
      n * b.BlockSize ≤ src.length →
      (cbcEncryptBlocks b n iv src).length = n * b.BlockSize
  | 0, _, _, _, _ => by simp [cbcEncryptBlocks]
  | n + 1, iv, src, hiv, hsrc => by
    have hle : b.BlockSize ≤ src.length := by
      rw [Nat.succ_mul] at hsrc; omega
    have hx : (xorBytes (src.take b.BlockSize) iv).length = b.BlockSize := by
      rw [xorBytes_length, List.length_take]; omega
    have hc := (hb.2 _ hx).1
    have hrest : n * b.BlockSize ≤ (src.drop b.BlockSize).length := by
      rw [List.length_drop, Nat.succ_mul] at *; omega
    have ih := cbcEncryptBlocks_length b hb n _ (src.drop b.BlockSize) hc hrest
    simp only [cbcEncryptBlocks, List.length_append, ih, hc, Nat.succ_mul]
    omega

theorem cbcDecryptBlocks_cbcEncryptBlocks (b : Block) (hb : b.Invertible) :
    ∀ (n : Nat) (iv src : List Nat), iv.length = b.BlockSize →
      src.length = n * b.BlockSize →
      cbcDecryptBlocks b n iv (cbcEncryptBlocks b n iv src) = src
  | 0, _, src, _, hsrc => by
    have : src = [] := List.length_eq_zero.mp (by simpa using hsrc)
    simp [cbcDecryptBlocks, this]
  | n + 1, iv, src, hiv, hsrc => by
    have hle : b.BlockSize ≤ src.length := by
      rw [Nat.succ_mul] at hsrc; omega
    have hx : (xorBytes (src.take b.BlockSize) iv).length = b.BlockSize := by
      rw [xorBytes_length, List.length_take]; omega
    obtain ⟨hc, hinv⟩ := hb.2 _ hx
    have hrest : (src.drop b.BlockSize).length = n * b.BlockSize := by
      rw [List.length_drop, hsrc, Nat.succ_mul]; omega
    have ih := cbcDecryptBlocks_cbcEncryptBlocks b hb n _ (src.drop b.BlockSize) hc hrest
    have htake : (src.take b.BlockSize).length ≤ iv.length := by
      rw [List.length_take]; omega
    simp only [cbcEncryptBlocks, cbcDecryptBlocks]
    rw [List.take_left' hc, List.drop_left' hc, hinv, ih, xorBytes_cancel _ _ htake,
      List.take_append_drop]

theorem aesNewCipher_ok (A : AES) (key : List Nat)
    (hk : key.length = 16 ∨ key.length = 24 ∨ key.length = 32) :
    aesNewCipher A key = .ok { BlockSize := aesBlockSize
                               Encrypt := A.encryptBlock key
                               Decrypt := A.decryptBlock key } := by
  simp [aesNewCipher, hk]

theorem newCipher_aes (P : Package) (A : AES) (method : cipherMethod) (key : List Nat)
    (ha : method.algorithm = P.aesCipher) :
    newCipher P A method key
      = .ok { BlockSize := aesBlockSize
              Encrypt := A.encryptBlock (newCipherKey key)
              Decrypt := A.decryptBlock (newCipherKey key) } := by
  simp only [newCipher, ha, if_true]
  exact aesNewCipher_ok A _ (newCipherKey_length key)

theorem aesBlock_invertible (A : AES) (hA : A.Invertible) (key : List Nat) :
    Block.Invertible { BlockSize := aesBlockSize
                       Encrypt := A.encryptBlock (newCipherKey key)
                       Decrypt := A.decryptBlock (newCipherKey key) } :=
  ⟨Nat.zero_lt_succ 15, fun x hx => hA (newCipherKey key) x (newCipherKey_length key) hx⟩


theorem validateDataLength_eq (data : List Nat) (blockSize : Nat) (hpos : 0 < blockSize) :
    validateDataLength data blockSize
      = if data.length % blockSize ≠ 0 then .error (.dataLength data.length blockSize)
        else .ok () := by
  have h0 : blockSize ≠ 0 := by omega
  simp [validateDataLength, h0]

theorem cbcEncrypt_ok (b : Block) (hpos : 0 < b.BlockSize) (iv src : List Nat)
    (hsrc : src.length % b.BlockSize = 0) :
    cbcEncrypt b (zeroPadOrTruncate iv b.BlockSize) src
      = .ok (cbcEncryptBlocks b (src.length / b.BlockSize)
          (zeroPadOrTruncate iv b.BlockSize) src) := by
  have h0 : b.BlockSize ≠ 0 := by omega
  simp [cbcEncrypt, zeroPadOrTruncate_length, h0, hsrc]

theorem cbcDecrypt_ok (b : Block) (hpos : 0 < b.BlockSize) (iv src : List Nat)
    (hsrc : src.length % b.BlockSize = 0) :
    cbcDecrypt b (zeroPadOrTruncate iv b.BlockSize) src
      = .ok (cbcDecryptBlocks b (src.length / b.BlockSize)
          (zeroPadOrTruncate iv b.BlockSize) src) := by
  have h0 : b.BlockSize ≠ 0 := by omega
  simp [cbcDecrypt, zeroPadOrTruncate_length, h0, hsrc]

theorem decrypt_encrypt (P : Package) (method : cipherMethod) (b : Block)
    (hb : b.Invertible) (iv data c : List Nat)
    (hdata : data.length % b.BlockSize = 0)
    (h : encrypt P method b iv data = .ok c) :
    c.length % b.BlockSize = 0 ∧ decrypt P method b iv c = .ok data := by
  unfold encrypt at h
  by_cases hm : method.mode = P.cbcMode
  · rw [if_pos hm, cbcEncrypt_ok b hb.1 iv data hdata] at h
    injection h with h
    have hdiv : data.length = data.length / b.BlockSize * b.BlockSize :=
      (Nat.div_mul_cancel (Nat.dvd_of_mod_eq_zero hdata)).symm
    have hivlen := zeroPadOrTruncate_length iv b.BlockSize
    have hclen : c.length = data.length / b.BlockSize * b.BlockSize := by
      rw [← h]
      exact cbcEncryptBlocks_length b hb _ _ _ hivlen (Nat.le_of_eq hdiv.symm)
    have hcmod : c.length % b.BlockSize = 0 := by
      rw [hclen]; exact Nat.mul_mod_left _ _
    refine ⟨hcmod, ?_⟩
    unfold decrypt
    rw [if_pos hm, cbcDecrypt_ok b hb.1 iv c hcmod]
    have hn : c.length / b.BlockSize = data.length / b.BlockSize := by
      rw [hclen]; exact Nat.mul_div_cancel _ hb.1
    rw [hn, ← h, cbcDecryptBlocks_cbcEncryptBlocks b hb _ _ _ hivlen hdiv]
  · rw [if_neg hm] at h
    cases h

theorem unpadData_padData (P : Package) (hP : P.UnpadInvertsPad) (method : cipherMethod)
    (data padded : List Nat) (blockSize : Nat)
    (h : padData P method data blockSize = .ok padded) :
    unpadData P method padded = .ok data := by
  unfold padData at h
  unfold unpadData
  by_cases h1 : method.padding = P.pkcsPadding
  · rw [if_pos h1] at h ⊢
    exact hP _ _ _ h
  · rw [if_neg h1] at h ⊢
    by_cases h2 : method.padding = P.noPadding
    · rw [if_pos h2] at h ⊢
      injection h with h
      rw [h]
    · rw [if_neg h2] at h
      cases h

theorem Decrypt_of_Encrypt (P : Package) (A : AES) (hA : A.Invertible)
    (hP : P.UnpadInvertsPad) (data key iv : List Nat) (cipherType : String)
    (c : List Nat) (h : Encrypt P A data key iv cipherType = .ok c) :
    Decrypt P A c key iv cipherType = .ok data := by
  unfold Encrypt at h
  unfold Decrypt
  cases hp : P.parseCipherMethod cipherType with
  | error e => rw [hp] at h; cases h
  | ok method =>
    rw [hp] at h
    simp only at h ⊢
    by_cases ha : method.algorithm = P.aesCipher
    · rw [newCipher_aes P A method key ha] at h ⊢
      simp only at h ⊢
      have hb := aesBlock_invertible A hA key
      cases hpad : padData P method data aesBlockSize with
      | error e => rw [hpad] at h; cases h
      | ok padded =>
        rw [hpad] at h
        simp only at h
        rw [validateDataLength_eq _ _ hb.1] at h
        by_cases hlen : padded.length % aesBlockSize = 0
        · simp only [hlen, ne_eq, not_true_eq_false, if_false] at h
          obtain ⟨hc, hdec⟩ := decrypt_encrypt P method _ hb iv padded c hlen h
          rw [validateDataLength_eq _ _ hb.1]
          simp only [hc, ne_eq, not_true_eq_false, if_false]
          rw [hdec]
          exact unpadData_padData P hP method data padded _ hpad
        · simp only [hlen, ne_eq, not_false_eq_true, if_true] at h
          cases h
    · simp only [newCipher, ha, if_false] at h
      cases h

theorem Encrypt_noPadding_ok (P : Package) (A : AES)
    (data key iv : List Nat) (cipherType : String) (method : cipherMethod)
    (hp : P.parseCipherMethod cipherType = .ok method)
    (ha : method.algorithm = P.aesCipher) (hm : method.mode = P.cbcMode)
    (hpad : method.padding = P.noPadding) (hne : P.pkcsPadding ≠ P.noPadding)
    (hlen : data.length % 16 = 0) :
    Encrypt P A data key iv cipherType
      = .ok (cbcEncryptBlocks
          { BlockSize := aesBlockSize
            Encrypt := A.encryptBlock (newCipherKey key)
            Decrypt := A.decryptBlock (newCipherKey key) }
          (data.length / 16) (zeroPadOrTruncate iv 16) data) := by
  have hpos : 0 < aesBlockSize := Nat.zero_lt_succ 15
  have hnp : ¬ method.padding = P.pkcsPadding := by
    rw [hpad]; exact fun h => hne h.symm
  have hpd : padData P method data aesBlockSize = .ok data := by
    unfold padData
    rw [if_neg hnp, if_pos hpad]
  have hlen2 : data.length % aesBlockSize = 0 := hlen
  have hv : validateDataLength data aesBlockSize = .ok () := by
    rw [validateDataLength_eq _ _ hpos]
    simp only [hlen2, ne_eq, not_true_eq_false, if_false]
  unfold Encrypt
  rw [hp]
  simp only
  rw [newCipher_aes P A method key ha]
  simp only
  rw [hpd]
  simp only
  rw [hv]
  simp only
  unfold encrypt
  rw [if_pos hm]
  exact cbcEncrypt_ok _ hpos iv data hlen2


theorem Encrypt_noPadding_error (P : Package) (A : AES)
    (data key iv : List Nat) (cipherType : String) (method : cipherMethod)
    (hp : P.parseCipherMethod cipherType = .ok method)
    (ha : method.algorithm = P.aesCipher)
    (hpad : method.padding = P.noPadding) (hne : P.pkcsPadding ≠ P.noPadding)
    (hlen : data.length % 16 ≠ 0) :
    Encrypt P A data key iv cipherType = .error (.dataLength data.length 16) := by
  have hpos : 0 < aesBlockSize := Nat.zero_lt_succ 15
  have hnp : ¬ method.padding = P.pkcsPadding := by
    rw [hpad]; exact fun h => hne h.symm
  have hpd : padData P method data aesBlockSize = .ok data := by
    unfold padData
    rw [if_neg hnp, if_pos hpad]
  have hlen2 : data.length % aesBlockSize ≠ 0 := hlen
  have hv : validateDataLength data aesBlockSize
      = .error (.dataLength data.length 16) := by
    rw [validateDataLength_eq _ _ hpos, if_pos hlen2]
    rfl
  unfold Encrypt
  rw [hp]
  simp only
  rw [newCipher_aes P A method key ha]
  simp only
  rw [hpd]
  simp only
  rw [hv]

theorem Decrypt_error_of_length (P : Package) (A : AES)
    (data key iv : List Nat) (cipherType : String) (method : cipherMethod)
    (hp : P.parseCipherMethod cipherType = .ok method)
    (ha : method.algorithm = P.aesCipher)
    (hlen : data.length % 16 ≠ 0) :
    Decrypt P A data key iv cipherType = .error (.dataLength data.length 16) := by
  have hpos : 0 < aesBlockSize := Nat.zero_lt_succ 15
  have hlen2 : data.length % aesBlockSize ≠ 0 := hlen
  have hv : validateDataLength data aesBlockSize
      = .error (.dataLength data.length 16) := by
    rw [validateDataLength_eq _ _ hpos, if_pos hlen2]
    rfl
  unfold Decrypt
  rw [hp]
  simp only
  rw [newCipher_aes P A method key ha]
  simp only
  rw [hv]

theorem demoAES_invertible : demoAES.Invertible := by
  intro key x hk hx
  have hx16 : x.length = 16 := hx
  have hle : x.length ≤ (key.take 16).length := by
    rw [List.length_take]; omega
  constructor
  · show ((xorBytes x (key.take 16)).reverse).length = 16
    rw [List.length_reverse, xorBytes_length]; omega
  · show xorBytes ((xorBytes x (key.take 16)).reverse).reverse (key.take 16) = x
    rw [List.reverse_reverse, xorBytes_cancel _ _ hle]

theorem demoPackage_unpadInvertsPad : demoPackage.UnpadInvertsPad := by
  intro data blockSize padded h
  change demoPkcsPad data blockSize = .ok padded at h
  show demoPkcsUnpad padded = .ok data
  unfold demoPkcsPad at h
  by_cases hbs : blockSize = 0 ∨ blockSize > 255
  · rw [if_pos hbs] at h; cases h
  · rw [if_neg hbs] at h
    injection h with h
    have hpos : 0 < blockSize := by omega
    have hmod := Nat.mod_lt data.length hpos
    obtain ⟨m, hm⟩ : ∃ m, blockSize - data.length % blockSize = m + 1 :=
      ⟨blockSize - data.length % blockSize - 1, by omega⟩
    simp only [hm] at h
    have hlast : padded.getLast? = some (m + 1) := by
      rw [← h, List.replicate_succ', ← List.append_assoc, List.getLast?_concat]
    have hlen : padded.length = data.length + (m + 1) := by
      rw [← h, List.length_append, List.length_replicate]
    unfold demoPkcsUnpad
    rw [hlast]
    simp only
    have hok : ¬ (m + 1 = 0 ∨ m + 1 > padded.length) := by omega
    rw [if_neg hok, hlen, Nat.add_sub_cancel, ← h, List.take_left]


/-- C3: `Decrypt` undoes `Encrypt`. Assume that, for keys of a valid size, AES
block encryption maps a 16-byte block to a 16-byte block which AES block
decryption maps back, and that `pkcsUnpad` inverts `pkcsPad`. Then whenever `Encrypt data key iv cipherType`
returns a ciphertext `c` without error, `Decrypt c key iv cipherType` returns
exactly `data` without error. In particular, for a cipher type that parses to
AES in CBC mode with no padding and `len(data)` a multiple of 16, `Encrypt`
succeeds and the round trip returns `data`. -/
theorem Decrypt_Encrypt_roundtrip (P : Package) (A : AES) (hA : A.Invertible)
    (hP : P.UnpadInvertsPad) (data key iv : List Nat) (cipherType : String) :
    (∀ c, Encrypt P A data key iv cipherType = .ok c →
      Decrypt P A c key iv cipherType = .ok data) ∧
    (∀ method, P.parseCipherMethod cipherType = .ok method →
      method.algorithm = P.aesCipher → method.mode = P.cbcMode →
      method.padding = P.noPadding → P.pkcsPadding ≠ P.noPadding →
      data.length % 16 = 0 →
      ∃ c, Encrypt P A data key iv cipherType = .ok c ∧
        Decrypt P A c key iv cipherType = .ok data) := by
  refine ⟨fun c h => Decrypt_of_Encrypt P A hA hP data key iv cipherType c h, ?_⟩
  intro method hp ha hm hpad hne hlen
  have henc := Encrypt_noPadding_ok P A data key iv cipherType method hp ha hm hpad hne hlen
  exact ⟨_, henc, Decrypt_of_Encrypt P A hA hP data key iv cipherType _ henc⟩

/-- Witness of C3: with the toy cipher and PKCS#7 padding, the 19 bytes
`demoBlock ++ [1, 2, 3]` encrypt under "aes" to 32 bytes, which decrypt to the
19 bytes; and the 16 bytes `demoBlock` make the round trip without padding. -/
theorem Decrypt_Encrypt_roundtrip_witness :
    demoAES.Invertible ∧ demoPackage.UnpadInvertsPad ∧
    Encrypt demoPackage demoAES (demoBlock ++ [1, 2, 3]) demoKey demoIV "aes"
      = .ok [23, 8, 9, 10, 11, 12, 13, 14, 15, 0, 1, 2, 3, 54, 97, 206,
             196, 107, 60, 9, 8, 11, 10, 5, 4, 7, 6, 1, 0, 13, 13, 17] ∧
    Decrypt demoPackage demoAES
        [23, 8, 9, 10, 11, 12, 13, 14, 15, 0, 1, 2, 3, 54, 97, 206,
         196, 107, 60, 9, 8, 11, 10, 5, 4, 7, 6, 1, 0, 13, 13, 17] demoKey demoIV "aes"
      = .ok (demoBlock ++ [1, 2, 3]) ∧
    (∃ c, Encrypt demoPackage demoAES demoBlock demoKey demoIV "aes-cbc/pad:none" = .ok c ∧
      Decrypt demoPackage demoAES c demoKey demoIV "aes-cbc/pad:none" = .ok demoBlock) :=
  ⟨demoAES_invertible, demoPackage_unpadInvertsPad, rfl,
    (Decrypt_Encrypt_roundtrip demoPackage demoAES demoAES_invertible
      demoPackage_unpadInvertsPad (demoBlock ++ [1, 2, 3]) demoKey demoIV "aes").1 _ rfl,
    (Decrypt_Encrypt_roundtrip demoPackage demoAES demoAES_invertible
      demoPackage_unpadInvertsPad demoBlock demoKey demoIV "aes-cbc/pad:none").2
      { algorithm := 1, mode := 0, padding := 1 } rfl rfl rfl rfl (by decide) (by decide)⟩

/-- C4: data whose length is not a multiple of the block size is rejected. For a
positive block size, `validateDataLength` returns its error exactly when
`len(d) % blockSize ≠ 0` and returns nil otherwise. For a cipher type that parses
to an AES method (whatever its mode and padding), `Decrypt` returns that error,
and so no plaintext, whenever `len(data)` is not a multiple of 16. For an AES-CBC
method with no padding, `Encrypt` returns that error exactly when `len(data)` is
not a multiple of 16, and a ciphertext otherwise. -/
theorem data_length_rejected (P : Package) (A : AES) (d : List Nat) (blockSize : Nat)
    (hpos : 0 < blockSize) (data key iv : List Nat) (cipherType : String)
    (method : cipherMethod) (hp : P.parseCipherMethod cipherType = .ok method)
    (ha : method.algorithm = P.aesCipher) :
    (validateDataLength d blockSize = .error (.dataLength d.length blockSize)
      ↔ d.length % blockSize ≠ 0) ∧
    (validateDataLength d blockSize = .ok () ↔ d.length % blockSize = 0) ∧
    (data.length % 16 ≠ 0 →
      Decrypt P A data key iv cipherType = .error (.dataLength data.length 16)) ∧
    (method.mode = P.cbcMode → method.padding = P.noPadding →
      P.pkcsPadding ≠ P.noPadding →
      (Encrypt P A data key iv cipherType = .error (.dataLength data.length 16)
        ↔ data.length % 16 ≠ 0) ∧
      ((∃ e, Encrypt P A data key iv cipherType = .error e) ↔ data.length % 16 ≠ 0) ∧
      ((∃ c, Encrypt P A data key iv cipherType = .ok c) ↔ data.length % 16 = 0)) := by
  refine ⟨?_, ?_, ?_, ?_⟩
  · rw [validateDataLength_eq d blockSize hpos]
    by_cases h : d.length % blockSize = 0 <;> simp [h]
  · rw [validateDataLength_eq d blockSize hpos]
    by_cases h : d.length % blockSize = 0 <;> simp [h]
  · exact Decrypt_error_of_length P A data key iv cipherType method hp ha
  · intro hm hpad hne
    by_cases h : data.length % 16 = 0
    · have hok := Encrypt_noPadding_ok P A data key iv cipherType method hp ha hm hpad hne h
      refine ⟨?_, ?_, ?_⟩
      · rw [hok]; simp [h]
      · rw [hok]; simp [h]
      · rw [hok]; simp [h]
    · have herr := Encrypt_noPadding_error P A data key iv cipherType method hp ha hpad hne h
      refine ⟨?_, ?_, ?_⟩
      · rw [herr]; simp [h]
      · rw [herr]; simp [h]
      · rw [herr]; simp [h]

/-- Witness of C4: 17 bytes against block size 16, and 19 bytes given to
`Decrypt` and to `Encrypt` without padding. -/
theorem data_length_rejected_witness :
    validateDataLength (List.replicate 17 0) 16 = .error (.dataLength 17 16) ∧
    Decrypt demoPackage demoAES (demoBlock ++ [1, 2, 3]) demoKey demoIV "aes-cbc/pad:none"
      = .error (.dataLength 19 16) ∧
    Encrypt demoPackage demoAES (demoBlock ++ [1, 2, 3]) demoKey demoIV "aes-cbc/pad:none"
      = .error (.dataLength 19 16) := by
  have h := data_length_rejected demoPackage demoAES (List.replicate 17 0) 16 (by decide)
    (demoBlock ++ [1, 2, 3]) demoKey demoIV "aes-cbc/pad:none"
    { algorithm := 1, mode := 0, padding := 1 } rfl rfl
  exact ⟨h.1.mpr (by decide), h.2.2.1 (by decide),
    (h.2.2.2 rfl rfl (by decide)).1.mpr (by decide)⟩

/-- C9: unknown cipher-method components are errors. If the algorithm is not
`aesCipher`, `newCipher` returns the unknown-algorithm error and no cipher; if
the padding is neither `pkcsPadding` nor `noPadding`, `padData` and `unpadData`
return their unknown-padding errors and no data; if the mode is not `cbcMode`,
`encrypt` and `decrypt` return the unknown-mode error and no data. With
`noPadding` (a constant different from `pkcsPadding`), `padData` and `unpadData`
return their input unchanged, without error. -/
theorem unknown_components_are_errors (P : Package) (A : AES) (method : cipherMethod)
    (key data iv : List Nat) (blockSize : Nat) (block : Block) :
    (method.algorithm ≠ P.aesCipher →
      newCipher P A method key = .error (.unknownAlgorithm method.algorithm)) ∧
    (method.padding ≠ P.pkcsPadding → method.padding ≠ P.noPadding →
      padData P method data blockSize = .error (.unknownPad method.padding) ∧
      unpadData P method data = .error (.unknownUnpad method.padding)) ∧
    (method.mode ≠ P.cbcMode →
      encrypt P method block iv data = .error (.unknownMode method.mode) ∧
      decrypt P method block iv data = .error (.unknownMode method.mode)) ∧
    (P.pkcsPadding ≠ P.noPadding → method.padding = P.noPadding →
      padData P method data blockSize = .ok data ∧
      unpadData P method data = .ok data) := by
  refine ⟨?_, ?_, ?_, ?_⟩
  · intro h
    simp only [newCipher, h, if_false]
  · intro h1 h2
    simp only [padData, unpadData, h1, h2, if_false, and_self]
  · intro h
    simp only [encrypt, decrypt, h, if_false, and_self]
  · intro hne h
    have h1 : ¬ method.padding = P.pkcsPadding := by
      rw [h]; exact fun e => hne e.symm
    constructor
    · unfold padData; rw [if_neg h1, if_pos h]
    · unfold unpadData; rw [if_neg h1, if_pos h]

/-- Witness of C9: a method whose three components are all unknown (7, 8, 9),
and the method with AES, CBC and no padding. -/
theorem unknown_components_are_errors_witness :
    (∀ b, newCipher demoPackage demoAES { algorithm := 7, mode := 8, padding := 9 } demoKey
      ≠ .ok b) ∧
    padData demoPackage { algorithm := 7, mode := 8, padding := 9 } demoBlock 16
      = .error (.unknownPad 9) ∧
    unpadData demoPackage { algorithm := 7, mode := 8, padding := 9 } demoBlock
      = .error (.unknownUnpad 9) ∧
    padData demoPackage { algorithm := 1, mode := 0, padding := 1 } [1, 2, 3] 16
      = .ok [1, 2, 3] := by
  have h := unknown_components_are_errors demoPackage demoAES
    { algorithm := 7, mode := 8, padding := 9 } demoKey demoBlock demoIV 16
    { BlockSize := 16, Encrypt := id, Decrypt := id }
  have h2 := unknown_components_are_errors demoPackage demoAES
    { algorithm := 1, mode := 0, padding := 1 } demoKey [1, 2, 3] demoIV 16
    { BlockSize := 16, Encrypt := id, Decrypt := id }
  refine ⟨?_, (h.2.1 (by decide) (by decide)).1, (h.2.1 (by decide) (by decide)).2,
    (h2.2.2.2 (by decide) rfl).1⟩
  intro b hb
  rw [h.1 (by decide)] at hb
  cases hb

/-- C10: for every key, the key that `newCipher` hands to the AES constructor has
length 32 when `len(key) ≥ 32`, 24 when `24 ≤ len(key) < 32`, and 16 otherwise;
so its length is one of 16, 24, 32, and with the AES algorithm `newCipher`
returns a cipher of block size 16 and never a key-size error. -/
theorem newCipher_key_length (P : Package) (A : AES) (method : cipherMethod)
    (key : List Nat) :
    (32 ≤ key.length → (newCipherKey key).length = 32) ∧
    (24 ≤ key.length → key.length < 32 → (newCipherKey key).length = 24) ∧
    (key.length < 24 → (newCipherKey key).length = 16) ∧
    ((newCipherKey key).length = 16 ∨ (newCipherKey key).length = 24 ∨
      (newCipherKey key).length = 32) ∧
    (method.algorithm = P.aesCipher →
      newCipher P A method key = aesNewCipher A (newCipherKey key) ∧
      ∃ b, newCipher P A method key = .ok b ∧ b.BlockSize = 16) ∧
    (∀ n, newCipher P A method key ≠ .error (.keySize n)) := by
  refine ⟨?_, ?_, ?_, newCipherKey_length key, ?_, ?_⟩
  · intro h
    have h' : key.length ≥ 32 := h
    simp only [newCipherKey, h', if_true, zeroPadOrTruncate_length]
  · intro h1 h2
    have h1' : key.length ≥ 24 := h1
    have h2' : ¬ key.length ≥ 32 := by omega
    simp only [newCipherKey, h1', h2', if_true, if_false, zeroPadOrTruncate_length]
  · intro h
    have h1' : ¬ key.length ≥ 24 := by omega
    have h2' : ¬ key.length ≥ 32 := by omega
    simp only [newCipherKey, h1', h2', if_false, zeroPadOrTruncate_length]
  · intro ha
    refine ⟨by simp only [newCipher, ha, if_true], _, newCipher_aes P A method key ha, rfl⟩
  · intro n hn
    by_cases ha : method.algorithm = P.aesCipher
    · rw [newCipher_aes P A method key ha] at hn
      cases hn
    · simp only [newCipher, ha, if_false] at hn
      cases hn

/-- Witness of C10: the empty key becomes 16 zero bytes, a key of 30 bytes is cut
to 24 and a key of 40 bytes to 32. -/
theorem newCipher_key_length_witness :
    newCipherKey [] = List.replicate 16 0 ∧
    (newCipherKey (List.replicate 30 1)).length = 24 ∧
    (newCipherKey (List.replicate 40 1)).length = 32 ∧
    (∃ b, newCipher demoPackage demoAES { algorithm := 1, mode := 0, padding := 0 } []
      = .ok b ∧ b.BlockSize = 16) :=
  ⟨by decide,
    (newCipher_key_length demoPackage demoAES { algorithm := 1, mode := 0, padding := 0 }
      (List.replicate 30 1)).2.1 (by decide) (by decide),
    (newCipher_key_length demoPackage demoAES { algorithm := 1, mode := 0, padding := 0 }
      (List.replicate 40 1)).1 (by decide),
    ((newCipher_key_length demoPackage demoAES { algorithm := 1, mode := 0, padding := 0 }
      []).2.2.2.2.1 rfl).2⟩

end pgcryptocipherccl

namespace settings

theorem layers_SetExplicit (sv : Values) (k : InternalKey) (v : String) :
    (sv.SetExplicit k v).layers k = { sv.layers k with explicit := some v } := by
  simp [Values.SetExplicit]

theorem layers_ClearExplicit (sv : Values) (k : InternalKey) :
    (sv.ClearExplicit k).layers k = { sv.layers k with explicit := none } := by
  simp [Values.ClearExplicit]

theorem layers_SetExternal (sv : Values) (k : InternalKey) (v : String) :
    (sv.SetExternal k v).layers k = { sv.layers k with external := some v } := by
  simp [Values.SetExternal]

theorem layers_ClearExternal (sv : Values) (k : InternalKey) :
    (sv.ClearExternal k).layers k = { sv.layers k with external := none } := by
  simp [Values.ClearExternal]

/-- C2: the precedence law of the values store. For a setting with default `d`
and values `e` and `x`: in a new store the resolved value is `d` with origin
Default; after `SetExplicit(e)` it is `e` with origin ExplicitlySet; after
`SetExternal(x)` in addition it is `x` with origin ExternallySet; after
`ClearExternal` it is `e` again; after `ClearExplicit` it is `d` again. From any
store, writing the two layers in either order gives the same layers and the
resolved value `x`; and in any store the resolved value is the external layer if
present, else the explicit layer if present, else the default. -/
theorem precedence_law (d : Descriptor) (e x : String) (sv : Values) :
    (d.Encoded Values.new = d.DefaultEncodedValue ∧
      d.ValueOrigin Values.new = OriginDefault) ∧
    (d.Encoded (Values.new.SetExplicit d.Key e) = e ∧
      d.ValueOrigin (Values.new.SetExplicit d.Key e) = OriginExplicitlySet) ∧
    (d.Encoded ((Values.new.SetExplicit d.Key e).SetExternal d.Key x) = x ∧
      d.ValueOrigin ((Values.new.SetExplicit d.Key e).SetExternal d.Key x)
        = OriginExternallySet) ∧
    (d.Encoded (((Values.new.SetExplicit d.Key e).SetExternal d.Key x).ClearExternal d.Key)
        = e ∧
      d.ValueOrigin
        (((Values.new.SetExplicit d.Key e).SetExternal d.Key x).ClearExternal d.Key)
        = OriginExplicitlySet) ∧
    (d.Encoded ((((Values.new.SetExplicit d.Key e).SetExternal d.Key x).ClearExternal
        d.Key).ClearExplicit d.Key) = d.DefaultEncodedValue ∧
      d.ValueOrigin ((((Values.new.SetExplicit d.Key e).SetExternal d.Key x).ClearExternal
        d.Key).ClearExplicit d.Key) = OriginDefault) ∧
    ((sv.SetExternal d.Key x).SetExplicit d.Key e
        = (sv.SetExplicit d.Key e).SetExternal d.Key x ∧
      d.Encoded ((sv.SetExternal d.Key x).SetExplicit d.Key e) = x ∧
      d.ValueOrigin ((sv.SetExternal d.Key x).SetExplicit d.Key e) = OriginExternallySet ∧
      d.Encoded ((sv.SetExplicit d.Key e).SetExternal d.Key x) = x ∧
      d.ValueOrigin ((sv.SetExplicit d.Key e).SetExternal d.Key x) = OriginExternallySet) ∧
    (d.Encoded sv = ((sv.layers d.Key).external.getD
        ((sv.layers d.Key).explicit.getD d.DefaultEncodedValue)) ∧
      d.ValueOrigin sv = (if (sv.layers d.Key).external.isSome then OriginExternallySet
        else if (sv.layers d.Key).explicit.isSome then OriginExplicitlySet
        else OriginDefault)) := by
  refine ⟨?_, ?_, ?_, ?_, ?_, ⟨?_, ?_, ?_, ?_, ?_⟩, ?_, ?_⟩
  · simp [Descriptor.Encoded, Descriptor.ValueOrigin, Resolve, Values.new]
  · simp [Descriptor.Encoded, Descriptor.ValueOrigin, Resolve, Values.new,
      layers_SetExplicit]
  · simp [Descriptor.Encoded, Descriptor.ValueOrigin, Resolve, Values.new,
      layers_SetExplicit, layers_SetExternal]
  · simp [Descriptor.Encoded, Descriptor.ValueOrigin, Resolve, Values.new,
      layers_SetExplicit, layers_SetExternal, layers_ClearExternal]
  · simp [Descriptor.Encoded, Descriptor.ValueOrigin, Resolve, Values.new,
      layers_SetExplicit, layers_SetExternal, layers_ClearExternal, layers_ClearExplicit]
  · simp only [Values.SetExternal, Values.SetExplicit, Values.mk.injEq]
    funext k2
    by_cases h : k2 = d.Key <;> simp [h]
  · simp [Descriptor.Encoded, Resolve, layers_SetExplicit, layers_SetExternal]
  · simp [Descriptor.ValueOrigin, Resolve, layers_SetExplicit, layers_SetExternal]
  · simp [Descriptor.Encoded, Resolve, layers_SetExplicit, layers_SetExternal]
  · simp [Descriptor.ValueOrigin, Resolve, layers_SetExplicit, layers_SetExternal]
  · unfold Descriptor.Encoded Resolve
    cases (sv.layers d.Key).external <;> cases (sv.layers d.Key).explicit <;> rfl
  · unfold Descriptor.ValueOrigin Resolve
    cases (sv.layers d.Key).external <;> cases (sv.layers d.Key).explicit <;> rfl

/-- C5: redaction. If `LookupForReportingByKey` returns a setting whose
descriptor is marked non-reportable, then in every store its `String(store)` is
the fixed redaction token; the result is the same in all stores, and it does not
contain "secret123". -/
theorem reporting_view_redacts (render : Char → String → Option String) (reg : Registry)
    (key : InternalKey) (s : Setting) (sv : Values)
    (hlookup : LookupForReportingByKey reg key = some s)
    (hnr : s.descriptor.Reportable = false) :
    s.String render sv = redactionToken ∧
    (∀ sv2 : Values, s.String render sv2 = s.String render sv) ∧
    containsSubstring (s.String render sv) "secret123" = false := by
  have hmasked : ∃ d, s = Setting.masked d := by
    unfold LookupForReportingByKey at hlookup
    cases hf : reg.find? (fun d => d.Key == key) with
    | none => rw [hf] at hlookup; cases hlookup
    | some d =>
      rw [hf] at hlookup
      simp only [Option.map_some', Option.some.injEq] at hlookup
      by_cases hr : d.Reportable = true
      · rw [if_pos hr] at hlookup
        rw [← hlookup] at hnr
        simp only [Setting.descriptor] at hnr
        rw [hr] at hnr
        cases hnr
      · rw [if_neg hr] at hlookup
        exact ⟨d, hlookup.symm⟩
  obtain ⟨d, rfl⟩ := hmasked
  refine ⟨rfl, fun _ => rfl, ?_⟩
  show containsSubstring redactionToken "secret123" = false
  decide

/-- Witness of C5: the explicit layer of the non-reportable setting holds
"secret123"; the non-masked lookup shows it, the lookup for reporting shows the
token. -/
theorem reporting_view_redacts_witness :
    demoSecret.Encoded demoStore = "secret123" ∧
    (LookupByKey demoRegistry "server.secret_token").map
      (fun s => s.String demoRender demoStore) = some "secret123" ∧
    LookupForReportingByKey demoRegistry "server.secret_token"
      = some (Setting.masked demoSecret) ∧
    (Setting.masked demoSecret).String demoRender demoStore = "<redacted>" :=
  ⟨by decide, by decide, rfl,
    (reporting_view_redacts demoRender demoRegistry "server.secret_token"
      (Setting.masked demoSecret) demoStore rfl rfl).1⟩

/-- C6: `DecodeToString` is a read-only preview. It takes the setting and the
encoded string and no store, so it reads and changes none. It returns `repr`
exactly when the encoded string decodes to the rendering `repr` and passes the
validator, and the validation error for the encoded string exactly otherwise.
A returned `repr` is the string representation of that value: it is what
`String(store)` gives on every store in which the encoded string is the resolved
value of the setting, whatever else the store holds, in particular after loading
it into either layer of an arbitrary store. In the statement `SET CLUSTER
SETTING`, which previews before it commits, a failed preview leaves the store as
it was, and after a successful one the store is changed by `SetExplicit` alone
and `String(store)` gives the previewed `repr` (no external layer being present). -/
theorem DecodeToString_read_only (render : Char → String → Option String)
    (d : Descriptor) (encoded : String) (sv : Values) :
    (∀ repr, d.DecodeToString render encoded = .ok repr ↔
      (render d.TypeTag encoded = some repr ∧
        ∀ valid, d.Validator = some valid → valid encoded = true)) ∧
    (d.DecodeToString render encoded = .error (.validation encoded d.TypeTag) ↔
      (render d.TypeTag encoded = none ∨
        ∃ valid, d.Validator = some valid ∧ valid encoded = false)) ∧
    ((∃ repr, d.DecodeToString render encoded = .ok repr) ∨
      d.DecodeToString render encoded = .error (.validation encoded d.TypeTag)) ∧
    (∀ repr, d.DecodeToString render encoded = .ok repr →
      (∀ sv2 : Values, d.Encoded sv2 = encoded → d.String render sv2 = repr) ∧
      d.String render ((sv.ClearExternal d.Key).SetExplicit d.Key encoded) = repr ∧
      d.String render (sv.SetExternal d.Key encoded) = repr ∧
      SetClusterSetting render d sv encoded = (sv.SetExplicit d.Key encoded, none) ∧
      ((sv.layers d.Key).external = none →
        d.String render (SetClusterSetting render d sv encoded).1 = repr)) ∧
    (∀ err, d.DecodeToString render encoded = .error err →
      SetClusterSetting render d sv encoded = (sv, some err)) := by
  have hok : ∀ repr, d.DecodeToString render encoded = .ok repr ↔
      (render d.TypeTag encoded = some repr ∧
        ∀ valid, d.Validator = some valid → valid encoded = true) := by
    intro repr
    unfold Descriptor.DecodeToString
    cases hr : render d.TypeTag encoded with
    | none => simp
    | some r =>
      cases hv : d.Validator with
      | none => simp
      | some valid =>
        by_cases hb : valid encoded = true
        · simp [hb]
        · simp [hb]
  have herr : d.DecodeToString render encoded = .error (.validation encoded d.TypeTag) ↔
      (render d.TypeTag encoded = none ∨
        ∃ valid, d.Validator = some valid ∧ valid encoded = false) := by
    unfold Descriptor.DecodeToString
    cases hr : render d.TypeTag encoded with
    | none => simp
    | some r =>
      cases hv : d.Validator with
      | none => simp
      | some valid =>
        by_cases hb : valid encoded = true
        · simp [hb]
        · simp [hb]
  have hstr : ∀ repr, d.DecodeToString render encoded = .ok repr →
      ∀ sv2 : Values, d.Encoded sv2 = encoded → d.String render sv2 = repr := by
    intro repr h sv2 henc
    have hr := ((hok repr).mp h).1
    unfold Descriptor.String
    rw [henc, hr]
  have hload : d.Encoded ((sv.ClearExternal d.Key).SetExplicit d.Key encoded) = encoded := by
    simp [Descriptor.Encoded, Resolve, layers_SetExplicit, layers_ClearExternal]
  have hext : d.Encoded (sv.SetExternal d.Key encoded) = encoded := by
    simp [Descriptor.Encoded, Resolve, layers_SetExternal]
  refine ⟨hok, herr, ?_, ?_, ?_⟩
  · by_cases hr : render d.TypeTag encoded = none
    · exact Or.inr (herr.mpr (Or.inl hr))
    · obtain ⟨r, hr2⟩ := Option.ne_none_iff_exists'.mp hr
      cases hv : d.Validator with
      | none =>
        exact Or.inl ⟨r, (hok r).mpr ⟨hr2, fun valid h => by rw [hv] at h; cases h⟩⟩
      | some valid =>
        by_cases hb : valid encoded = true
        · refine Or.inl ⟨r, (hok r).mpr ⟨hr2, fun valid2 h => ?_⟩⟩
          rw [hv] at h
          injection h with h
          rw [← h]; exact hb
        · exact Or.inr (herr.mpr (Or.inr ⟨valid, hv, by simpa using hb⟩))
  · intro repr h
    have hset : SetClusterSetting render d sv encoded
        = (sv.SetExplicit d.Key encoded, none) := by
      unfold SetClusterSetting
      rw [h]
    refine ⟨hstr repr h, hstr repr h _ hload, hstr repr h _ hext, hset, ?_⟩
    intro hnone
    rw [hset]
    apply hstr repr h
    simp [Descriptor.Encoded, Resolve, layers_SetExplicit, hnone]
  · intro err h
    unfold SetClusterSetting
    rw [h]

/-- Witness of C6: the boolean setting previews "true" as "true", which is what
`String` gives once "true" is loaded; "maybe" does not decode, and the literal
of 65 characters fails the validator of the secret setting, so the statement
`SET CLUSTER SETTING` leaves the store as it was. -/
theorem DecodeToString_read_only_witness :
    demoFlag.DecodeToString demoRender "true" = .ok "true" ∧
    demoFlag.String demoRender
      ((demoStore.ClearExternal demoFlag.Key).SetExplicit demoFlag.Key "true") = "true" ∧
    demoFlag.DecodeToString demoRender "maybe" = .error (.validation "maybe" 'b') ∧
    SetClusterSetting demoRender demoFlag demoStore "maybe"
      = (demoStore, some (.validation "maybe" 'b')) ∧
    demoSecret.DecodeToString demoRender (String.mk (List.replicate 65 'x'))
      = .error (.validation (String.mk (List.replicate 65 'x')) 's') :=
  ⟨((DecodeToString_read_only demoRender demoFlag "true" demoStore).1 "true").mpr
      ⟨rfl, fun _ h => by cases h⟩,
    ((DecodeToString_read_only demoRender demoFlag "true" demoStore).2.2.2.1 "true" rfl).2.1,
    (DecodeToString_read_only demoRender demoFlag "maybe" demoStore).2.1.mpr (Or.inl rfl),
    (DecodeToString_read_only demoRender demoFlag "maybe" demoStore).2.2.2.2 _ rfl,
    (DecodeToString_read_only demoRender demoSecret (String.mk (List.replicate 65 'x'))
      demoStore).2.1.mpr (Or.inr ⟨fun s => s.length ≤ 64, rfl, by decide⟩)⟩

end settings

namespace tests

theorem bytesLt_irrefl : ∀ x : List Nat, bytesLt x x = false
  | [] => rfl
  | a :: x => by simp [bytesLt, bytesLt_irrefl x]

theorem bytesLt_trans : ∀ x y z : List Nat,
    bytesLt x y = true → bytesLt y z = true → bytesLt x z = true
  | [], [], _, h, _ => by simp [bytesLt] at h
  | [], _ :: _, [], _, h => by simp [bytesLt] at h
  | [], _ :: _, _ :: _, _, _ => by simp [bytesLt]
  | _ :: _, [], _, h, _ => by simp [bytesLt] at h
  | _ :: _, _ :: _, [], _, h => by simp [bytesLt] at h
  | a :: x, b :: y, c :: z, h1, h2 => by
    simp only [bytesLt, Bool.or_eq_true, decide_eq_true_eq, Bool.and_eq_true,
      beq_iff_eq] at h1 h2 ⊢
    rcases h1 with h1 | ⟨h1, h1'⟩
    · rcases h2 with h2 | ⟨h2, _⟩
      · left; omega
      · left; omega
    · rcases h2 with h2 | ⟨h2, h2'⟩
      · left; omega
      · right; exact ⟨by omega, bytesLt_trans x y z h1' h2'⟩

theorem alphabetized_head : ∀ (a : String) (l : List String),
    alphabetized (a :: l) = true →
    ∀ b ∈ l, bytesLt (stringBytes a) (stringBytes b) = true
  | _, [], _, b, hb => by cases hb
  | a, c :: rest, h, b, hb => by
    simp only [alphabetized, Bool.and_eq_true] at h
    rcases List.mem_cons.mp hb with rfl | hb2
    · exact h.1
    · exact bytesLt_trans _ _ _ h.1 (alphabetized_head c rest h.2 b hb2)

theorem alphabetized_tail (a : String) (l : List String)
    (h : alphabetized (a :: l) = true) : alphabetized l = true := by
  cases l with
  | nil => rfl
  | cons c rest =>
    simp only [alphabetized, Bool.and_eq_true] at h
    exact h.2

theorem alphabetized_pairwise : ∀ l : List String, alphabetized l = true →
    l.Pairwise (fun a b => bytesLt (stringBytes a) (stringBytes b) = true)
  | [], _ => List.Pairwise.nil
  | a :: l, h =>
    List.Pairwise.cons (alphabetized_head a l h)
      (alphabetized_pairwise l (alphabetized_tail a l h))

theorem alphabetized_nodup (l : List String) (h : alphabetized l = true) : l.Nodup := by
  refine (alphabetized_pairwise l h).imp ?_
  intro a b hlt hab
  rw [hab, bytesLt_irrefl] at hlt
  cases hlt

/-- C8: the asyncpg lists are alphabetized. The 92 keys of
`asyncpgIgnoreList21_2`, in the order they are written, are in strictly
increasing byte-wise lexicographic order (each key is less than the next, hence
less than every later key), so no key occurs twice; `asyncpgBlocklist21_2` is
empty, and so alphabetized; and the v22.1 lists are the v21.2 lists. -/
theorem asyncpg_lists_alphabetized :
    asyncpgIgnoreList21_2.keys.length = 92 ∧
    alphabetized asyncpgIgnoreList21_2.keys = true ∧
    asyncpgIgnoreList21_2.keys.Pairwise
      (fun a b => bytesLt (stringBytes a) (stringBytes b) = true) ∧
    asyncpgIgnoreList21_2.keys.Nodup ∧
    asyncpgBlocklist21_2 = [] ∧
    alphabetized asyncpgBlocklist21_2.keys = true ∧
    asyncpgBlocklist21_2.keys.Nodup ∧
    asyncpgIgnoreList22_1 = asyncpgIgnoreList21_2 ∧
    asyncpgBlocklist22_1 = asyncpgBlocklist21_2 ∧
    alphabetized asyncpgIgnoreList22_1.keys = true ∧
    alphabetized asyncpgBlocklist22_1.keys = true := by
  have h : alphabetized asyncpgIgnoreList21_2.keys = true := by decide
  exact ⟨by decide, h, alphabetized_pairwise _ h, alphabetized_nodup _ h, rfl, rfl,
    List.nodup_nil, rfl, rfl, h, rfl⟩

end tests
